import Mathlib

/-!
Shallow embedding of the `puppeteer-paywall` scraping service
(canonical server variant of `src/unnamed/part_002`, lines 394-1003,
plus `src/duplicate-tab-extension/background.js`).

The `/scrape` request handler is modelled as a pure function from
  - the request body (`ReqBody`),
  - the server/browser environment (`Env`): `NODE_ENV`, the browser's
    target list at tab-duplication time, and the page's DOM as seen by
    `waitForSelector`,
  - an `Oracle` fixing the outcome (success or thrown error) of every
    fallible asynchronous step the handler awaits,
to a response together with a trace of resource/extraction events.
Machinery the claims never touch (logging, launch-argument assembly,
viewport size, fixed delays) is collapsed; every control-flow decision of
the handler (validation, try/catch/finally, the wsj.com side-effect
guard, the method dispatch, the status-code classifier, the per-resource
cleanup guards) is embedded one-to-one.
-/

namespace Paywall

/-- A thrown JavaScript error as the handler observes it: `error.name`,
`error.constructor.name`, `error.message`, `error.stack`. -/
structure JsError where
  name : String
  ctorName : String
  message : String
  stack : String
deriving DecidableEq, Repr

/-- Whether `hay` starts with `needle`, on character lists. -/
def charsStartWith : List Char → List Char → Bool
  | [], _ => true
  | _ :: _, [] => false
  | a :: as, b :: bs => a == b && charsStartWith as bs

/-- Whether `hay` contains `needle` as a contiguous run, on character
lists. -/
def charsContain (hay needle : List Char) : Bool :=
  charsStartWith needle hay ||
    match hay with
    | [] => false
    | _ :: t => charsContain t needle

/-- `String.prototype.includes` (case-sensitive substring test), used by
the classifier and the wsj.com URL guard. -/
def jsIncludes (hay needle : String) : Bool :=
  charsContain hay.data needle.data

/-- JS truthiness of an optional string body field: `!x` is true when the
field is absent or the empty string (the two shapes `url`/`selector`
take in a JSON body of strings). -/
def jsFalsy : Option String → Bool
  | none => true
  | some s => s == ""

/-- Value of an optional string field once validation has passed. -/
def getStr : Option String → String
  | none => ""
  | some s => s

/-- Request body of `POST /scrape`:
`const { url, selector, method = "css", debug = false } = req.body`. -/
structure ReqBody where
  url : Option String
  selector : Option String
  method : String
  debug : Bool
deriving DecidableEq, Repr

/- ======================================================================
   XPath in-page evaluation (`page.evaluate` callback, part_002 lines
   777-847).
   ====================================================================== -/

/-- Carrier for a JavaScript number (`XPathResult.numberValue`); the
handler only boxes the value, never computes with it, so it is carried
opaquely as its IEEE-754 bit pattern. -/
structure JSNumber where
  bits : Nat
deriving DecidableEq, Repr

/-- A DOM node as far as `processNode` inspects it: its `nodeType`
(element = 1, attribute = 2, text = 3, comment = 8, anything else by its
numeric code) and the one property read from it. -/
inductive XNode where
  | element (outerHTML : String)
  | attribute (nodeValue : String)
  | text (nodeValue : String)
  | comment (nodeValue : String)
  | other (nodeType : Nat)
deriving DecidableEq, Repr

/-- A JSON value that can appear in the XPath result array. -/
inductive JVal where
  | num (v : JSNumber)
  | str (s : String)
  | bool (b : Bool)
  | null
deriving DecidableEq, Repr

/-- `processNode` from the in-page XPath evaluator: `null` maps to
`null`; an element to its `outerHTML`; an attribute or text node to its
`nodeValue`; a comment to `<!-- value -->`; any other node type to the
`Unsupported node type: n` marker. -/
def processNode : Option XNode → JVal
  | none => JVal.null
  | some (XNode.element h) => JVal.str h
  | some (XNode.attribute v) => JVal.str v
  | some (XNode.text v) => JVal.str v
  | some (XNode.comment v) => JVal.str ("<!-- " ++ v ++ " -->")
  | some (XNode.other t) => JVal.str ("Unsupported node type: " ++ toString t)

/-- The `XPathResult` returned by `document.evaluate`, by `resultType`:
number (1), string (2), boolean (3), unordered/ordered node iterator
(4/5, `iterateNext` yields the listed nodes in order then `null`),
unordered/ordered node snapshot (6/7, `snapshotItem i` for
`i < snapshotLength`), any/first single node (8/9, `singleNodeValue`
possibly `null`), or an unknown code. -/
inductive XPathResult where
  | numberR (v : JSNumber)
  | stringR (v : String)
  | booleanR (v : Bool)
  | iteratorR (ordered : Bool) (nodes : List XNode)
  | snapshotR (ordered : Bool) (nodes : List XNode)
  | singleNodeR (first : Bool) (node : Option XNode)
  | unknownR (t : Nat)
deriving DecidableEq, Repr

/-- The `switch (result.resultType)` of the in-page XPath evaluator:
every branch returns an array — scalars are boxed as singletons,
iterator/snapshot node-sets are visited in order through `processNode`,
single-node results box the one projected value, and an unknown result
type yields a singleton marker string. -/
def evalXPathResult : XPathResult → List JVal
  | XPathResult.numberR v => [JVal.num v]
  | XPathResult.stringR v => [JVal.str v]
  | XPathResult.booleanR v => [JVal.bool v]
  | XPathResult.iteratorR _ ns => ns.map (fun n => processNode (some n))
  | XPathResult.snapshotR _ ns => ns.map (fun n => processNode (some n))
  | XPathResult.singleNodeR _ n => [processNode n]
  | XPathResult.unknownR t => [JVal.str ("Unknown XPathResult type: " ++ toString t)]

/-- The error the `page.evaluate` XPath branch rethrows when the in-page
evaluation throws: `XPath evaluation failed in browser: <original>`. -/
def xpathEvalError (msg : String) : JsError :=
  ⟨"Error", "Error", "XPath evaluation failed in browser: " ++ msg,
   "Error: XPath evaluation failed in browser: " ++ msg⟩

/- ======================================================================
   Tab-duplicator discovery and command
   (`duplicateTabViaExtension`, part_002 lines 432-566).
   ====================================================================== -/

/-- The extension's reply to the `identify` message. -/
structure IdResp where
  identity : String
deriving DecidableEq, Repr

/-- The extension's reply to the `duplicateTab` message. -/
structure DupResp where
  success : Bool
  newTabId : Option Nat
  error : Option String
deriving DecidableEq, Repr

/-- State of the `duplicateTab` message round trip as the sender's
callback observes it: a channel-level error (`chrome.runtime.lastError`),
no reply at all (`response` undefined), or an application-level reply. -/
inductive CmdReplyState where
  | channelError (msg : String)
  | noResponse
  | responded (resp : DupResp)
deriving DecidableEq, Repr

/-- A browser target as `duplicateTabViaExtension` observes it:
`t.type()`, `t.url()`, the outcome of the identity round trip against it
(`none` covers a handshake timeout, a channel error, a failure to obtain
the worker context, and an absent reply — all of which the loop treats
alike), and the state of a `duplicateTab` round trip against it. -/
structure WorkerT where
  ttype : String
  url : String
  identifyReply : Option IdResp
  cmdReply : CmdReplyState
deriving DecidableEq, Repr

/-- Outcome of `duplicateTabViaExtension`: resolved with the extension's
reply, or rejected with an error message. -/
inductive DupOutcome where
  | ok (resp : DupResp)
  | err (message : String)
deriving DecidableEq, Repr

/-- The candidate filter: targets whose type is `service_worker` and
whose URL contains `chrome-extension://`. -/
def serviceWorkerCandidates (targets : List WorkerT) : List WorkerT :=
  targets.filter (fun t => t.ttype == "service_worker" && jsIncludes t.url "chrome-extension://")

/-- The bounded wait applied to each identity round trip
(`setTimeout(..., 1000)` racing the reply). -/
def identifyTimeoutMs : Nat := 1000

/-- The identity loop: walk the candidates in sequence; a worker whose
round trip produced no usable reply is skipped, and the loop breaks at
the first worker whose reply has `identity === "tab-duplicator"`. -/
def findTabDuplicator : List WorkerT → Option WorkerT
  | [] => none
  | w :: ws =>
    match w.identifyReply with
    | some r => if r.identity == "tab-duplicator" then some w else findTabDuplicator ws
    | none => findTabDuplicator ws

/-- The not-found rejection message: reports how many candidates were
checked and their URLs. -/
def notFoundMessage (sws : List WorkerT) : String :=
  "Tab-duplicator extension not found among " ++ toString sws.length ++
    " service workers. Checked: " ++ String.intercalate ", " (sws.map (fun w => w.url))

/-- JS `x || "Unknown error"` on the optional `response.error` field
(absent and empty string are both falsy). -/
def orUnknownError : Option String → String
  | none => "Unknown error"
  | some s => if s == "" then "Unknown error" else s

/-- The `duplicateTab` send callback: a channel error rejects with its
message; a successful reply resolves; an absent reply rejects with
`No response from extension`; any other reply rejects with its `error`
field or `Unknown error`. -/
def sendDuplicateCommand : CmdReplyState → DupOutcome
  | CmdReplyState.channelError m => DupOutcome.err m
  | CmdReplyState.responded r =>
      if r.success then DupOutcome.ok r
      else DupOutcome.err (orUnknownError r.error)
  | CmdReplyState.noResponse => DupOutcome.err "No response from extension"

/-- `duplicateTabViaExtension`: filter the targets to extension service
workers, locate the tab-duplicator by the identity handshake, and either
send it the `duplicateTab` command or reject with the not-found
message. -/
def duplicateTabViaExtension (targets : List WorkerT) : DupOutcome :=
  let sws := serviceWorkerCandidates targets
  match findTabDuplicator sws with
  | none => DupOutcome.err (notFoundMessage sws)
  | some w => sendDuplicateCommand w.cmdReply

/- ======================================================================
   Tab-duplicator extension background script
   (`src/duplicate-tab-extension/background.js`).
   ====================================================================== -/

/-- The chrome API surface the background script touches: the active tab
of the current window (if any) and the id assigned to a duplicate of a
given tab. -/
structure ChromeEnv where
  activeTab : Option Nat
  duplicatedId : Nat → Nat

/-- The background script's reply shape. -/
structure BgResponse where
  success : Bool
  newTabId : Nat
deriving DecidableEq, Repr

/-- The `chrome.runtime.onMessage` listener of the background script: for
`action === "duplicateTab"` it queries the active tab, duplicates it and
replies `{success: true, newTabId}` (no reply can be produced when there
is no active tab, since `tabs[0].id` then throws inside the callback);
for every other action the listener body does nothing — `sendResponse`
is never called and no reply is produced. -/
def backgroundOnMessage (env : ChromeEnv) (action : String) : Option BgResponse :=
  if action == "duplicateTab" then
    match env.activeTab with
    | some tid => some ⟨true, env.duplicatedId tid⟩
    | none => none
  else
    none

/- ======================================================================
   The `/scrape` handler (part_002 lines 571-974).
   ====================================================================== -/

/-- An element handle's one observed property. -/
structure Element where
  outerHTML : String
deriving DecidableEq, Repr

/-- Server/browser environment of one request: whether
`NODE_ENV === "development"`, the browser's target list at
tab-duplication time, and the page's DOM as `waitForSelector` sees it —
for a selector, `none` means the selector never appears within the wait
window, `some none` the defensive resolved-but-null shape the handler
guards against, `some (some el)` the first matching element. -/
structure Env where
  devEnv : Bool
  targets : List WorkerT
  cssFirstMatch : String → Option (Option Element)

/-- Outcome oracle for every fallible awaited step of one request: the
temp profile directory creation, the browser launch, page creation, page
setup (viewport/user-agent), navigation, the post-navigation mouse and
scroll actions, the in-page XPath evaluation (error side carries the
original in-page message), and the three cleanup operations. -/
structure Oracle where
  mkTempDir : Except JsError String
  launch : Except JsError Unit
  newPage : Except JsError Unit
  pageSetup : Except JsError Unit
  navigate : Except JsError Unit
  postNav : Except JsError Unit
  xpathEval : Except String XPathResult
  closePage : Except JsError Unit
  closeBrowser : Except JsError Unit
  removeDir : Except JsError Unit

/-- Whether an `Except` outcome is a success. -/
def exceptOk {ε α : Type} : Except ε α → Bool
  | Except.ok _ => true
  | Except.error _ => false

/-- Events traced by one request: each resource/extraction step as it is
attempted; cleanup events record whether the wrapped operation
succeeded. -/
inductive Event where
  | mkTempDir
  | launchBrowser
  | newPage
  | pageSetup
  | navigate
  | dupAttempt (outcome : DupOutcome)
  | postNav
  | evalXPath
  | waitForSelector
  | readOuterHTML
  | disposeHandle
  | closePage (ok : Bool)
  | closeBrowser (ok : Bool)
  | removeDir (ok : Bool)
deriving DecidableEq, Repr

/-- Which resources the try phase managed to create, driving the
`if (page)` / `if (browser)` / `if (userDataDir)` cleanup guards. -/
structure Resources where
  dirCreated : Bool
  browserLaunched : Bool
  pageCreated : Bool
deriving DecidableEq, Repr

/-- The successful payload: `res.type("text/html").send(html)` for the
CSS branch, `res.json(array)` for the XPath branch. -/
inductive SuccessPayload where
  | htmlPayload (html : String)
  | jsonPayload (data : List JVal)
deriving DecidableEq, Repr

/-- The handler's response: the 400 missing-fields JSON, a success
payload, or the catch block's error JSON
`{error, details, type, stack?}` with its classified status code. -/
inductive Response where
  | missingFields
  | success (p : SuccessPayload)
  | failure (status : Nat) (error details etype : String) (stack : Option String)
deriving DecidableEq, Repr

/-- HTTP status of a response (success paths use Express's default
200). -/
def statusOf : Response → Nat
  | Response.missingFields => 400
  | Response.success _ => 200
  | Response.failure st _ _ _ _ => st

/-- Modelled from the spec: the rejection `page.waitForSelector` produces
when the selector never appears within the wait window. The page
abstraction (puppeteer-core) is not part of src/; per its documented
behavior the wait rejects with a `TimeoutError` whose message names the
selector and the exceeded wait. -/
def waitTimeoutError (sel : String) : JsError :=
  ⟨"TimeoutError", "TimeoutError",
   "Waiting for selector `" ++ sel ++ "` failed: Waiting failed: 15000ms exceeded",
   "TimeoutError: Waiting for selector `" ++ sel ++ "` failed: Waiting failed: 15000ms exceeded"⟩

/-- The handler's own defensive error for a resolved-but-null handle. -/
def nullHandleError (sel : String) : JsError :=
  ⟨"Error", "Error",
   "CSS selector \"" ++ sel ++ "\" was found by waitForSelector, but handle is unexpectedly null.",
   "Error: CSS selector \"" ++ sel ++ "\" was found by waitForSelector, but handle is unexpectedly null."⟩

/-- The catch block's status classification, in source order: 504 for a
`TimeoutError` or a message containing `timeout` or `exceeded`; else 404
for a message containing `selector` together with `not found` or
`failed to find element`; else 502 for `Navigation failed` or
`net::ERR_`; else 400 for `XPath evaluation failed`; else 500. -/
def classifyStatus (e : JsError) : Nat :=
  if e.name == "TimeoutError" || jsIncludes e.message "timeout" || jsIncludes e.message "exceeded" then 504
  else if jsIncludes e.message "selector" && (jsIncludes e.message "not found" || jsIncludes e.message "failed to find element") then 404
  else if jsIncludes e.message "Navigation failed" || jsIncludes e.message "net::ERR_" then 502
  else if jsIncludes e.message "XPath evaluation failed" then 400
  else 500

/-- The catch block's response: classified status, constant error label,
the error's message and constructor name, and the stack only when the
request's debug flag is set or `NODE_ENV === "development"`. -/
def errorResponse (debug devEnv : Bool) (e : JsError) : Response :=
  Response.failure (classifyStatus e) "Scraping failed" e.message e.ctorName
    (if debug || devEnv then some e.stack else none)

/-- The extraction dispatch of the handler (`if (method === "xpath")`):
the XPath branch evaluates the expression in-page with no selector wait
and answers with the result array; the CSS branch waits for the
selector's first match (the wait either yields a handle or rejects with
the timeout error), guards against a null handle, reads the element's
outer markup, and disposes the handle after the read. -/
def runExtract (env : Env) (req : ReqBody) (o : Oracle) :
    Except JsError SuccessPayload × List Event :=
  if req.method == "xpath" then
    match o.xpathEval with
    | Except.error msg => (Except.error (xpathEvalError msg), [Event.evalXPath])
    | Except.ok r => (Except.ok (SuccessPayload.jsonPayload (evalXPathResult r)), [Event.evalXPath])
  else
    match env.cssFirstMatch (getStr req.selector) with
    | none =>
        (Except.error (waitTimeoutError (getStr req.selector)), [Event.waitForSelector])
    | some none =>
        (Except.error (nullHandleError (getStr req.selector)), [Event.waitForSelector])
    | some (some el) =>
        (Except.ok (SuccessPayload.htmlPayload el.outerHTML),
         [Event.waitForSelector, Event.readOuterHTML, Event.disposeHandle])

/-- The try phase of the handler, from profile-directory creation up to
computing the success payload: returns the thrown error or the payload,
the events traced so far, and which resources were created. The wsj.com
guard runs the tab-duplication side effect inside its own try/catch, so
its outcome is recorded but never propagates. -/
def runTryPhase (env : Env) (req : ReqBody) (o : Oracle) :
    Except JsError SuccessPayload × List Event × Resources :=
  match o.mkTempDir with
  | Except.error e => (Except.error e, [Event.mkTempDir], ⟨false, false, false⟩)
  | Except.ok _ =>
    match o.launch with
    | Except.error e => (Except.error e, [Event.mkTempDir, Event.launchBrowser], ⟨true, false, false⟩)
    | Except.ok _ =>
      match o.newPage with
      | Except.error e =>
          (Except.error e, [Event.mkTempDir, Event.launchBrowser, Event.newPage], ⟨true, true, false⟩)
      | Except.ok _ =>
        match o.pageSetup with
        | Except.error e =>
            (Except.error e,
             [Event.mkTempDir, Event.launchBrowser, Event.newPage, Event.pageSetup],
             ⟨true, true, true⟩)
        | Except.ok _ =>
          match o.navigate with
          | Except.error e =>
              (Except.error e,
               [Event.mkTempDir, Event.launchBrowser, Event.newPage, Event.pageSetup, Event.navigate],
               ⟨true, true, true⟩)
          | Except.ok _ =>
            let evs5 :=
              [Event.mkTempDir, Event.launchBrowser, Event.newPage, Event.pageSetup, Event.navigate] ++
                (if jsIncludes (getStr req.url) "wsj.com/" then
                  [Event.dupAttempt (duplicateTabViaExtension env.targets)]
                else [])
            match o.postNav with
            | Except.error e => (Except.error e, evs5 ++ [Event.postNav], ⟨true, true, true⟩)
            | Except.ok _ =>
              match runExtract env req o with
              | (r, eevs) => (r, evs5 ++ [Event.postNav] ++ eevs, ⟨true, true, true⟩)

/-- The finally block: close the page if one was created, then the
browser if it was launched, then remove the profile directory if it was
created; each step is individually wrapped, so its outcome is recorded
and the next step is attempted regardless. -/
def cleanupEvents (o : Oracle) (r : Resources) : List Event :=
  (if r.pageCreated then [Event.closePage (exceptOk o.closePage)] else []) ++
    (if r.browserLaunched then [Event.closeBrowser (exceptOk o.closeBrowser)] else []) ++
    (if r.dirCreated then [Event.removeDir (exceptOk o.removeDir)] else [])

/-- The full `/scrape` handler: validation first (a falsy `url` or
`selector` returns the 400 missing-fields response before any resource
event), then the try phase, the catch block's error mapping, and the
finally block's cleanup trace. -/
def runHandler (env : Env) (req : ReqBody) (o : Oracle) : Response × List Event :=
  if jsFalsy req.url || jsFalsy req.selector then
    (Response.missingFields, [])
  else
    match runTryPhase env req o with
    | (r, evs, res) =>
      let resp :=
        match r with
        | Except.ok p => Response.success p
        | Except.error e => errorResponse req.debug env.devEnv e
      (resp, evs ++ cleanupEvents o res)

/- ======================================================================
   Claim-support definitions and concrete fixtures.
   ====================================================================== -/

/-- The three teardown steps of the cleanup coordinator. -/
inductive CStep where
  | page
  | browser
  | profileDir
deriving DecidableEq, Repr

/-- Projects an event to the teardown step it records, if any. -/
def cleanupKind : Event → Option CStep
  | Event.closePage _ => some CStep.page
  | Event.closeBrowser _ => some CStep.browser
  | Event.removeDir _ => some CStep.profileDir
  | Event.mkTempDir => none
  | Event.launchBrowser => none
  | Event.newPage => none
  | Event.pageSetup => none
  | Event.navigate => none
  | Event.dupAttempt _ => none
  | Event.postNav => none
  | Event.evalXPath => none
  | Event.waitForSelector => none
  | Event.readOuterHTML => none
  | Event.disposeHandle => none

/-- Replace only the three cleanup outcomes of an oracle. -/
def setCleanup (o : Oracle) (cp cb rd : Except JsError Unit) : Oracle :=
  ⟨o.mkTempDir, o.launch, o.newPage, o.pageSetup, o.navigate, o.postNav, o.xpathEval, cp, cb, rd⟩

/-- An environment with no extension targets and an empty page DOM. -/
def envPlain : Env := ⟨false, [], fun _ => none⟩

/-- `envPlain` with `NODE_ENV === "development"`. -/
def envDev : Env := ⟨true, [], fun _ => none⟩

/-- The example element of spec §8.3. -/
def elExample : Element := ⟨"<h1>Example Domain</h1>"⟩

/-- A development-free environment whose page has `elExample` as the
first match for `h1` and no match for anything else. -/
def envExample : Env :=
  ⟨false, [], fun sel => if sel == "h1" then some (some elExample) else none⟩

/-- The oracle in which every awaited step succeeds (empty XPath
iterator result). -/
def oracleAllOk : Oracle :=
  ⟨Except.ok "/tmp/puppeteer-user-data-x", Except.ok (), Except.ok (), Except.ok (),
   Except.ok (), Except.ok (), Except.ok (XPathResult.iteratorR true []),
   Except.ok (), Except.ok (), Except.ok ()⟩

/-- A plain CSS request. -/
def reqCss : ReqBody := ⟨some "https://example.com/", some "h1", "css", false⟩

/-- `reqCss` with the debug flag set. -/
def reqCssDebug : ReqBody := ⟨some "https://example.com/", some "h1", "css", true⟩

/-- A CSS request against a wsj.com URL. -/
def reqWsj : ReqBody := ⟨some "https://www.wsj.com/articles/x", some "h1", "css", false⟩

/-- A plain XPath request. -/
def reqXp : ReqBody := ⟨some "https://example.com/", some "//p", "xpath", false⟩

/-- A network-level navigation failure. -/
def navRefusedError : JsError :=
  ⟨"Error", "Error", "net::ERR_CONNECTION_REFUSED at https://example.com/", "stack0"⟩

/-- `oracleAllOk` with navigation rejecting with `navRefusedError`. -/
def oracleNavFail : Oracle :=
  ⟨Except.ok "/tmp/puppeteer-user-data-x", Except.ok (), Except.ok (), Except.ok (),
   Except.error navRefusedError, Except.ok (), Except.ok (XPathResult.iteratorR true []),
   Except.ok (), Except.ok (), Except.ok ()⟩

/-- A page-creation failure. -/
def newPageFailError : JsError :=
  ⟨"Error", "Error", "Protocol error: Connection closed.", "stack1"⟩

/-- `oracleAllOk` with `browser.newPage()` rejecting. -/
def oracleNewPageFail : Oracle :=
  ⟨Except.ok "/tmp/puppeteer-user-data-x", Except.ok (), Except.error newPageFailError,
   Except.ok (), Except.ok (), Except.ok (), Except.ok (XPathResult.iteratorR true []),
   Except.ok (), Except.ok (), Except.ok ()⟩

/-- An extension service worker answering the handshake with identity
`a`. -/
def workerA : WorkerT :=
  ⟨"service_worker", "chrome-extension://aaa/sw.js", some ⟨"a"⟩, CmdReplyState.noResponse⟩

/-- An extension service worker answering the handshake with identity
`tab-duplicator`. -/
def workerTD : WorkerT :=
  ⟨"service_worker", "chrome-extension://bbb/sw.js", some ⟨"tab-duplicator"⟩,
   CmdReplyState.responded ⟨true, some 7, none⟩⟩

/-- An extension service worker whose handshake times out. -/
def workerSilent : WorkerT :=
  ⟨"service_worker", "chrome-extension://ccc/sw.js", none, CmdReplyState.noResponse⟩

/- ======================================================================
   Theorems.
   ====================================================================== -/

/-- Claim C4: the in-page XPath evaluator classifies the result by type:
numeric, string and boolean scalars each yield a single-element sequence
with that scalar; iterator and snapshot node-sets yield the matched
nodes in document order, projected to outer markup for elements, node
value for attributes and text, a comment-delimited string for comments,
and an unsupported-node-type marker otherwise; single-node result types
yield a single-element sequence of the one projected value; every branch
of the evaluator yields a sequence. -/
theorem xpathResultShape :
    (∀ v, evalXPathResult (XPathResult.numberR v) = [JVal.num v]) ∧
    (∀ s, evalXPathResult (XPathResult.stringR s) = [JVal.str s]) ∧
    (∀ b, evalXPathResult (XPathResult.booleanR b) = [JVal.bool b]) ∧
    (∀ ord ns, evalXPathResult (XPathResult.iteratorR ord ns) =
      ns.map (fun n => processNode (some n))) ∧
    (∀ ord ns, evalXPathResult (XPathResult.snapshotR ord ns) =
      ns.map (fun n => processNode (some n))) ∧
    (∀ first n, evalXPathResult (XPathResult.singleNodeR first n) = [processNode n]) ∧
    (∀ h, processNode (some (XNode.element h)) = JVal.str h) ∧
    (∀ v, processNode (some (XNode.attribute v)) = JVal.str v) ∧
    (∀ v, processNode (some (XNode.text v)) = JVal.str v) ∧
    (∀ v, processNode (some (XNode.comment v)) = JVal.str ("<!-- " ++ v ++ " -->")) ∧
    (∀ t, processNode (some (XNode.other t)) = JVal.str ("Unsupported node type: " ++ toString t)) ∧
    processNode none = JVal.null :=
  ⟨fun _ => rfl, fun _ => rfl, fun _ => rfl, fun _ _ => rfl, fun _ _ => rfl,
   fun _ _ => rfl, fun _ => rfl, fun _ => rfl, fun _ => rfl, fun _ => rfl,
   fun _ => rfl, rfl⟩

/-- Claim C10: the tab-duplicator background message listener produces a
reply only for messages whose action is `duplicateTab`; for every other
action, including the identify handshake, it never calls `sendResponse`
and yields no reply. -/
theorem backgroundRepliesOnlyDuplicate :
    (∀ (env : ChromeEnv) (action : String), action ≠ "duplicateTab" →
      backgroundOnMessage env action = none) ∧
    (∀ env : ChromeEnv, backgroundOnMessage env "identify" = none) := by
  constructor
  · intro env action h
    simp [backgroundOnMessage, h]
  · intro env
    simp [backgroundOnMessage]

/-- Witness for C10: the identify message gets no reply from a concrete
chrome environment with an active tab. -/
theorem backgroundRepliesOnlyDuplicateWitness :
    backgroundOnMessage ⟨some 1, fun t => t + 1⟩ "identify" = none :=
  backgroundRepliesOnlyDuplicate.1 ⟨some 1, fun t => t + 1⟩ "identify" (by decide)

/-- Claim C8: the identity handshake walks the candidates (targets
filtered to extension-namespace service workers) in sequence — it equals
a first-match search; a candidate whose bounded round trip yields
nothing (timeout, channel error, no reply) is skipped rather than
propagated; the per-candidate wait bound is 1000 ms; the loop
short-circuits at the first worker whose reply identity is
`tab-duplicator`; and when no candidate matches, the call rejects with a
not-found error stating how many candidates were checked and listing
their addresses. -/
theorem identityHandshakeRule :
    (∀ ws : List WorkerT,
      findTabDuplicator ws =
        ws.find? (fun w =>
          match w.identifyReply with
          | some r => r.identity == "tab-duplicator"
          | none => false)) ∧
    (∀ (w : WorkerT) (ws : List WorkerT), w.identifyReply = none →
      findTabDuplicator (w :: ws) = findTabDuplicator ws) ∧
    (∀ (w : WorkerT) (ws : List WorkerT) (r : IdResp), w.identifyReply = some r →
      r.identity = "tab-duplicator" → findTabDuplicator (w :: ws) = some w) ∧
    identifyTimeoutMs = 1000 ∧
    (∀ ts : List WorkerT,
      serviceWorkerCandidates ts =
        ts.filter (fun t => t.ttype == "service_worker" && jsIncludes t.url "chrome-extension://")) ∧
    (∀ ts : List WorkerT,
      findTabDuplicator (serviceWorkerCandidates ts) = none →
      duplicateTabViaExtension ts =
        DupOutcome.err
          ("Tab-duplicator extension not found among " ++
            toString (serviceWorkerCandidates ts).length ++
            " service workers. Checked: " ++
            String.intercalate ", " ((serviceWorkerCandidates ts).map (fun w => w.url)))) := by
  refine ⟨?_, ?_, ?_, rfl, fun _ => rfl, ?_⟩
  · intro ws
    induction ws with
    | nil => rfl
    | cons w ws ih =>
      cases h : w.identifyReply with
      | none => simp [findTabDuplicator, List.find?, h, ih]
      | some r =>
        by_cases hr : (r.identity == "tab-duplicator") = true
        · simp [findTabDuplicator, List.find?, h, hr]
        · simp only [Bool.not_eq_true] at hr
          simp [findTabDuplicator, List.find?, h, hr, ih]
  · intro w ws h
    simp [findTabDuplicator, h]
  · intro w ws r h hr
    simp [findTabDuplicator, h, hr]
  · intro ts h
    simp only [duplicateTabViaExtension, h, notFoundMessage]

/-- Witness for C8: a silent worker is skipped; a single non-matching
worker produces the enumerated not-found error; between identities `a`
and `tab-duplicator` the second worker is chosen. -/
theorem identityHandshakeRuleWitness :
    findTabDuplicator [workerSilent, workerA] = findTabDuplicator [workerA] ∧
    findTabDuplicator (workerTD :: []) = some workerTD ∧
    duplicateTabViaExtension [workerA] =
      DupOutcome.err
        ("Tab-duplicator extension not found among " ++
          toString (serviceWorkerCandidates [workerA]).length ++
          " service workers. Checked: " ++
          String.intercalate ", " ((serviceWorkerCandidates [workerA]).map (fun w => w.url))) ∧
    findTabDuplicator [workerA, workerTD] = some workerTD := by
  refine ⟨identityHandshakeRule.2.1 workerSilent [workerA] rfl,
          identityHandshakeRule.2.2.1 workerTD [] ⟨"tab-duplicator"⟩ rfl rfl,
          identityHandshakeRule.2.2.2.2.2 [workerA] (by decide), ?_⟩
  rw [identityHandshakeRule.1]
  decide

/-- Claim C3: a request with a missing or empty `url` or `selector` gets
the 400 missing-fields response, and no browser resource event is ever
traced — validation rejects before any allocation. -/
theorem validationRejectsBeforeAllocation :
    ∀ (env : Env) (req : ReqBody) (o : Oracle),
      (jsFalsy req.url || jsFalsy req.selector) = true →
      runHandler env req o = (Response.missingFields, []) ∧
      statusOf (runHandler env req o).1 = 400 := by
  intro env req o h
  constructor
  · simp [runHandler, h]
  · simp [runHandler, h, statusOf]

/-- Witness for C3: a request with no `url` is rejected with status 400
and an empty trace. -/
theorem validationRejectsBeforeAllocationWitness :
    runHandler envPlain ⟨none, some "h1", "css", false⟩ oracleAllOk =
      (Response.missingFields, []) ∧
    statusOf (runHandler envPlain ⟨none, some "h1", "css", false⟩ oracleAllOk).1 = 400 :=
  validationRejectsBeforeAllocation envPlain ⟨none, some "h1", "css", false⟩ oracleAllOk (by decide)

/-- Counterexample to C2 as stated: a CSS selector that never appears
within the wait window makes `waitForSelector` reject with a
`TimeoutError`, and the classifier tests the timeout branch first, so
the request is answered with 504, not the claimed 404. -/
theorem selectorWaitTimeoutGets504 :
    (runHandler envPlain reqCss oracleAllOk).1 =
      Response.failure 504 "Scraping failed"
        "Waiting for selector `h1` failed: Waiting failed: 15000ms exceeded"
        "TimeoutError" none ∧
    statusOf (runHandler envPlain reqCss oracleAllOk).1 = 504 ∧
    statusOf (runHandler envPlain reqCss oracleAllOk).1 ≠ 404 := by
  refine ⟨by decide, by decide, by decide⟩

/-- Claim C2 (amended): the classifier maps failures in source order —
any `TimeoutError`, and in particular the CSS selector-wait expiry,
yields 504 (so a selector that never appears is classified as a timeout,
not as not-found); a message naming the selector as not found, with no
timeout marker, yields 404; a network-level navigation failure
(`Navigation failed` or `net::ERR_`) with no earlier marker yields 502;
an XPath evaluation failure with no earlier marker yields 400; anything
unclassified yields 500. -/
theorem classifierStatusMap :
    (∀ sel, classifyStatus (waitTimeoutError sel) = 504) ∧
    (∀ e : JsError, e.name = "TimeoutError" → classifyStatus e = 504) ∧
    (∀ e : JsError,
      jsIncludes e.message "timeout" = true ∨ jsIncludes e.message "exceeded" = true →
      classifyStatus e = 504) ∧
    (∀ e : JsError,
      (e.name == "TimeoutError" || jsIncludes e.message "timeout" ||
        jsIncludes e.message "exceeded") = false →
      jsIncludes e.message "selector" = true →
      (jsIncludes e.message "not found" || jsIncludes e.message "failed to find element") = true →
      classifyStatus e = 404) ∧
    (∀ e : JsError,
      (e.name == "TimeoutError" || jsIncludes e.message "timeout" ||
        jsIncludes e.message "exceeded") = false →
      (jsIncludes e.message "selector" &&
        (jsIncludes e.message "not found" || jsIncludes e.message "failed to find element")) = false →
      (jsIncludes e.message "Navigation failed" || jsIncludes e.message "net::ERR_") = true →
      classifyStatus e = 502) ∧
    (∀ e : JsError,
      (e.name == "TimeoutError" || jsIncludes e.message "timeout" ||
        jsIncludes e.message "exceeded") = false →
      (jsIncludes e.message "selector" &&
        (jsIncludes e.message "not found" || jsIncludes e.message "failed to find element")) = false →
      (jsIncludes e.message "Navigation failed" || jsIncludes e.message "net::ERR_") = false →
      jsIncludes e.message "XPath evaluation failed" = true →
      classifyStatus e = 400) ∧
    (∀ e : JsError,
      (e.name == "TimeoutError" || jsIncludes e.message "timeout" ||
        jsIncludes e.message "exceeded") = false →
      (jsIncludes e.message "selector" &&
        (jsIncludes e.message "not found" || jsIncludes e.message "failed to find element")) = false →
      (jsIncludes e.message "Navigation failed" || jsIncludes e.message "net::ERR_") = false →
      jsIncludes e.message "XPath evaluation failed" = false →
      classifyStatus e = 500) := by
  refine ⟨?_, ?_, ?_, ?_, ?_, ?_, ?_⟩
  · intro sel
    simp [classifyStatus, waitTimeoutError]
  · intro e h
    simp [classifyStatus, h]
  · intro e h
    rcases h with h | h <;> simp [classifyStatus, h]
  · intro e h1 h2 h3
    simp [Bool.or_eq_false_iff] at h1
    simp [classifyStatus, h1, h2, h3]
  · intro e h1 h2 h3
    simp [Bool.or_eq_false_iff] at h1
    simp [classifyStatus, h1, h2, h3]
  · intro e h1 h2 h3 h4
    simp [Bool.or_eq_false_iff] at h1 h3
    simp [classifyStatus, h1, h2, h3, h4]
  · intro e h1 h2 h3 h4
    simp [Bool.or_eq_false_iff] at h1 h3
    simp [classifyStatus, h1, h2, h3, h4]

/-- Witness for C2 (amended): one concrete error per classifier branch —
the selector-wait expiry classifies as 504; a not-found message without
timeout markers as 404; a network failure as 502; an XPath evaluation
failure as 400; an unclassified message as 500. -/
theorem classifierStatusMapWitness :
    classifyStatus (waitTimeoutError "h1") = 504 ∧
    classifyStatus ⟨"Error", "Error", "failed to find element matching selector \"h1\"", "s"⟩ = 404 ∧
    classifyStatus ⟨"Error", "Error", "net::ERR_NAME_NOT_RESOLVED at https://x/", "s"⟩ = 502 ∧
    classifyStatus (xpathEvalError "Invalid expression") = 400 ∧
    classifyStatus ⟨"Error", "Error", "something odd happened", "s"⟩ = 500 :=
  ⟨classifierStatusMap.1 "h1",
   classifierStatusMap.2.2.2.1 ⟨"Error", "Error", "failed to find element matching selector \"h1\"", "s"⟩
     (by decide) (by decide) (by decide),
   classifierStatusMap.2.2.2.2.1 ⟨"Error", "Error", "net::ERR_NAME_NOT_RESOLVED at https://x/", "s"⟩
     (by decide) (by decide) (by decide),
   classifierStatusMap.2.2.2.2.2.1 (xpathEvalError "Invalid expression")
     (by decide) (by decide) (by decide) (by decide),
   classifierStatusMap.2.2.2.2.2.2 ⟨"Error", "Error", "something odd happened", "s"⟩
     (by decide) (by decide) (by decide) (by decide)⟩

/-- Counterexample to C7 as stated: with `NODE_ENV === "development"`,
a request that did not set the debug flag still receives the stack trace
in its error response. -/
theorem stackWithoutDebugCounterexample :
    reqCss.debug = false ∧
    (runHandler envDev reqCss oracleNavFail).1 =
      Response.failure 502 "Scraping failed"
        "net::ERR_CONNECTION_REFUSED at https://example.com/" "Error" (some "stack0") := by
  exact ⟨rfl, by decide⟩

/-- Claim C7 (amended): every error response of the handler carries the
stack trace field exactly when the request's debug flag is set or the
server runs with `NODE_ENV === "development"`. -/
theorem stackPresenceRule :
    ∀ (env : Env) (req : ReqBody) (o : Oracle) (st : Nat) (err det ty : String)
      (sta : Option String),
      (runHandler env req o).1 = Response.failure st err det ty sta →
      sta.isSome = (req.debug || env.devEnv) := by
  intro env req o st err det ty sta h
  unfold runHandler at h
  cases hv : jsFalsy req.url || jsFalsy req.selector with
  | true => simp [hv] at h
  | false =>
    rw [hv] at h
    simp only [Bool.false_eq_true, if_false] at h
    rcases hr : runTryPhase env req o with ⟨r, evs, res⟩
    rw [hr] at h
    cases r with
    | ok p => simp at h
    | error e =>
      simp only [errorResponse, Response.failure.injEq] at h
      rcases h with ⟨_, _, _, _, h5⟩
      cases hd : req.debug || env.devEnv with
      | true => rw [hd] at h5; rw [← h5]; rfl
      | false => rw [hd] at h5; rw [← h5]; rfl

/-- Witness for C7 (amended): a debug-flagged request against a
non-development server fails navigation and its error response carries
the stack, matching the flag. -/
theorem stackPresenceRuleWitness :
    (some "stack0" : Option String).isSome = (reqCssDebug.debug || envPlain.devEnv) :=
  stackPresenceRule envPlain reqCssDebug oracleNavFail 502 "Scraping failed"
    "net::ERR_CONNECTION_REFUSED at https://example.com/" "Error" (some "stack0") (by decide)

/-- The try phase never traces a teardown event. -/
theorem tryPhase_no_cleanup (env : Env) (req : ReqBody) (o : Oracle) :
    ((runTryPhase env req o).2.1).filterMap cleanupKind = [] := by
  rcases o with ⟨mk, la, np, ps, nav, pn, xe, cp, cb, rd⟩
  by_cases hm : req.method = "xpath" <;>
    rcases hcss : env.cssFirstMatch (getStr req.selector) with _ | (_ | _) <;>
    cases mk <;> cases la <;> cases np <;> cases ps <;> cases nav <;> cases pn <;>
    cases xe <;>
    simp [runTryPhase, runExtract, cleanupKind, hcss, hm]

/-- With the profile directory created and the browser launched, the try
phase reports the page as created exactly when `newPage` succeeded. -/
theorem tryPhase_resources (env : Env) (req : ReqBody) (o : Oracle) (d : String)
    (hmk : o.mkTempDir = Except.ok d) (hla : o.launch = Except.ok ()) :
    (runTryPhase env req o).2.2 = ⟨true, true, exceptOk o.newPage⟩ := by
  cases hnp : o.newPage with
  | error e => simp [runTryPhase, hmk, hla, hnp, exceptOk]
  | ok u =>
    rcases hx : runExtract env req o with ⟨er, eevs⟩
    cases hps : o.pageSetup <;> cases hnav : o.navigate <;> cases hpn : o.postNav <;>
      simp [runTryPhase, hmk, hla, hnp, hps, hnav, hpn, hx, exceptOk]

/-- The try phase reads none of the oracle's three cleanup outcomes. -/
theorem runTryPhase_setCleanup (env : Env) (req : ReqBody) (o : Oracle)
    (cp cb rd : Except JsError Unit) :
    runTryPhase env req (setCleanup o cp cb rd) = runTryPhase env req o := by
  cases o
  rfl

/-- Counterexample to C1 as stated: the browser session is successfully
created (profile directory made, browser launched) but `newPage` throws,
so the finally block's `if (page)` guard skips the page teardown — zero
page-close attempts are made, while the claim demands exactly one. The
browser-close and directory-removal attempts still each happen once. -/
theorem pageTeardownSkippedCounterexample :
    oracleNewPageFail.mkTempDir = Except.ok "/tmp/puppeteer-user-data-x" ∧
    oracleNewPageFail.launch = Except.ok () ∧
    (runHandler envPlain reqCss oracleNewPageFail).2.filterMap cleanupKind =
      [CStep.browser, CStep.profileDir] ∧
    ((runHandler envPlain reqCss oracleNewPageFail).2.filter
        (fun e => cleanupKind e == some CStep.page)).length = 0 := by
  refine ⟨rfl, rfl, by decide, by decide⟩

/-- Claim C1 (amended): for every request that creates the profile
directory and launches the browser, the teardown attempts traced are
exactly one for the page — when and only when a page was created — then
one for the browser process, then one for the profile directory, in that
fixed order; and the cleanup outcomes never influence the response: a
failing cleanup step neither prevents the following steps (they are
traced regardless) nor throws past the coordinator. -/
theorem cleanupTeardownShape :
    ∀ (env : Env) (req : ReqBody) (o : Oracle) (d : String),
      o.mkTempDir = Except.ok d → o.launch = Except.ok () →
      (jsFalsy req.url || jsFalsy req.selector) = false →
      ((runHandler env req o).2.filterMap cleanupKind =
        if exceptOk o.newPage then [CStep.page, CStep.browser, CStep.profileDir]
        else [CStep.browser, CStep.profileDir]) ∧
      (∀ cp cb rd : Except JsError Unit,
        (runHandler env req (setCleanup o cp cb rd)).1 = (runHandler env req o).1) := by
  intro env req o d hmk hla hv
  constructor
  · have h1 := tryPhase_no_cleanup env req o
    have h2 := tryPhase_resources env req o d hmk hla
    unfold runHandler
    rcases hr : runTryPhase env req o with ⟨r, evs, res⟩
    rw [hr] at h1 h2
    dsimp at h1 h2
    simp only [hv, Bool.false_eq_true, if_false]
    rw [List.filterMap_append, h1, h2]
    cases hb : exceptOk o.newPage <;> simp [cleanupEvents, cleanupKind, hb]
  · intro cp cb rd
    unfold runHandler
    rw [runTryPhase_setCleanup]
    rcases hr : runTryPhase env req o with ⟨r, evs, res⟩
    cases hv2 : jsFalsy req.url || jsFalsy req.selector <;> rfl

/-- Witness for C1 (amended): a fully successful request tears down
page, browser and profile directory, once each, in order. -/
theorem cleanupTeardownShapeWitness :
    (runHandler envPlain reqCss oracleAllOk).2.filterMap cleanupKind =
      (if exceptOk oracleAllOk.newPage then [CStep.page, CStep.browser, CStep.profileDir]
       else [CStep.browser, CStep.profileDir]) :=
  (cleanupTeardownShape envPlain reqCss oracleAllOk "/tmp/puppeteer-user-data-x"
    rfl rfl (by decide)).1

/-- Claim C5: a CSS-method request whose selector has a first match
within the wait window answers with the serialized outer markup of that
first matching element as an HTML-typed payload, and the trace shows the
handle disposed after the markup is read (and before the response). -/
theorem cssExtractionFirstMatchHtml :
    ∀ (env : Env) (req : ReqBody) (o : Oracle) (d : String) (el : Element),
      (jsFalsy req.url || jsFalsy req.selector) = false →
      (req.method == "xpath") = false →
      o.mkTempDir = Except.ok d → o.launch = Except.ok () → o.newPage = Except.ok () →
      o.pageSetup = Except.ok () → o.navigate = Except.ok () → o.postNav = Except.ok () →
      env.cssFirstMatch (getStr req.selector) = some (some el) →
      (runHandler env req o).1 = Response.success (SuccessPayload.htmlPayload el.outerHTML) ∧
      (runHandler env req o).2 =
        [Event.mkTempDir, Event.launchBrowser, Event.newPage, Event.pageSetup, Event.navigate] ++
          (if jsIncludes (getStr req.url) "wsj.com/" then
            [Event.dupAttempt (duplicateTabViaExtension env.targets)]
          else []) ++
          [Event.postNav, Event.waitForSelector, Event.readOuterHTML, Event.disposeHandle] ++
          cleanupEvents o ⟨true, true, true⟩ := by
  intro env req o d el hv hm hmk hla hnp hps hnav hpn hcss
  have hx : runExtract env req o =
      (Except.ok (SuccessPayload.htmlPayload el.outerHTML),
       [Event.waitForSelector, Event.readOuterHTML, Event.disposeHandle]) := by
    simp [runExtract, hm, hcss]
  constructor <;>
    simp [runHandler, hv, runTryPhase, hmk, hla, hnp, hps, hnav, hpn, hx]

/-- Witness for C5: selector `h1` on a page whose first match is
`<h1>Example Domain</h1>` answers with exactly that fragment. -/
theorem cssExtractionFirstMatchHtmlWitness :
    (runHandler envExample reqCss oracleAllOk).1 =
      Response.success (SuccessPayload.htmlPayload "<h1>Example Domain</h1>") :=
  (cssExtractionFirstMatchHtml envExample reqCss oracleAllOk "/tmp/puppeteer-user-data-x"
    elExample (by decide) (by decide) rfl rfl rfl rfl rfl rfl (by decide)).1

/-- Claim C6: when the navigated URL contains `wsj.com/`, the
tab-duplication command is attempted, and its failure — any rejection,
including the not-found error — is caught at the call site: the trace
records the failed attempt and extraction still proceeds to its normal
success payload for the same request, under either method. -/
theorem wsjSideEffectNonFatal :
    ∀ (env : Env) (req : ReqBody) (o : Oracle) (d msg : String) (el : Element)
      (r : XPathResult),
      (jsFalsy req.url || jsFalsy req.selector) = false →
      jsIncludes (getStr req.url) "wsj.com/" = true →
      o.mkTempDir = Except.ok d → o.launch = Except.ok () → o.newPage = Except.ok () →
      o.pageSetup = Except.ok () → o.navigate = Except.ok () → o.postNav = Except.ok () →
      duplicateTabViaExtension env.targets = DupOutcome.err msg →
      (Event.dupAttempt (DupOutcome.err msg) ∈ (runHandler env req o).2) ∧
      ((req.method == "xpath") = false →
        env.cssFirstMatch (getStr req.selector) = some (some el) →
        (runHandler env req o).1 = Response.success (SuccessPayload.htmlPayload el.outerHTML)) ∧
      ((req.method == "xpath") = true → o.xpathEval = Except.ok r →
        (runHandler env req o).1 =
          Response.success (SuccessPayload.jsonPayload (evalXPathResult r))) := by
  intro env req o d msg el r hv hw hmk hla hnp hps hnav hpn hdup
  refine ⟨?_, ?_, ?_⟩
  · rcases hx : runExtract env req o with ⟨er, eevs⟩
    simp [runHandler, hv, runTryPhase, hmk, hla, hnp, hps, hnav, hpn, hx, hw, hdup]
  · intro hm hcss
    have hx : runExtract env req o =
        (Except.ok (SuccessPayload.htmlPayload el.outerHTML),
         [Event.waitForSelector, Event.readOuterHTML, Event.disposeHandle]) := by
      simp [runExtract, hm, hcss]
    simp [runHandler, hv, runTryPhase, hmk, hla, hnp, hps, hnav, hpn, hx]
  · intro hm hxe
    have hx : runExtract env req o =
        (Except.ok (SuccessPayload.jsonPayload (evalXPathResult r)), [Event.evalXPath]) := by
      simp [runExtract, hm, hxe]
    simp [runHandler, hv, runTryPhase, hmk, hla, hnp, hps, hnav, hpn, hx]

/-- Witness for C6: a wsj.com request in a browser with no extension
targets records the failed not-found duplication attempt and still
answers with the page's first `h1` markup. -/
theorem wsjSideEffectNonFatalWitness :
    Event.dupAttempt
        (DupOutcome.err "Tab-duplicator extension not found among 0 service workers. Checked: ") ∈
      (runHandler envExample reqWsj oracleAllOk).2 ∧
    (runHandler envExample reqWsj oracleAllOk).1 =
      Response.success (SuccessPayload.htmlPayload "<h1>Example Domain</h1>") := by
  have h := wsjSideEffectNonFatal envExample reqWsj oracleAllOk "/tmp/puppeteer-user-data-x"
    "Tab-duplicator extension not found among 0 service workers. Checked: "
    elExample (XPathResult.iteratorR true []) (by decide) (by decide)
    rfl rfl rfl rfl rfl rfl (by decide)
  exact ⟨h.1, h.2.1 (by decide) (by decide)⟩

/-- Claim C9: an XPath-method request whose expression evaluates without
error but matches zero nodes (an empty iterator or snapshot node-set)
answers with a success response whose payload is the empty sequence,
with status 200 rather than any failure; and no XPath-method request
ever traces a selector wait. -/
theorem xpathEmptyMatchSuccess :
    (∀ (env : Env) (req : ReqBody) (o : Oracle) (d : String) (ord : Bool),
      (jsFalsy req.url || jsFalsy req.selector) = false →
      (req.method == "xpath") = true →
      o.mkTempDir = Except.ok d → o.launch = Except.ok () → o.newPage = Except.ok () →
      o.pageSetup = Except.ok () → o.navigate = Except.ok () → o.postNav = Except.ok () →
      (o.xpathEval = Except.ok (XPathResult.iteratorR ord []) ∨
        o.xpathEval = Except.ok (XPathResult.snapshotR ord [])) →
      (runHandler env req o).1 = Response.success (SuccessPayload.jsonPayload []) ∧
      statusOf (runHandler env req o).1 = 200) ∧
    (∀ (env : Env) (req : ReqBody) (o : Oracle),
      (req.method == "xpath") = true →
      Event.waitForSelector ∉ (runHandler env req o).2) := by
  constructor
  · intro env req o d ord hv hm hmk hla hnp hps hnav hpn hxe
    have hx : runExtract env req o =
        (Except.ok (SuccessPayload.jsonPayload []), [Event.evalXPath]) := by
      rcases hxe with hxe | hxe <;> simp [runExtract, hm, hxe, evalXPathResult]
    constructor <;>
      simp [runHandler, hv, runTryPhase, hmk, hla, hnp, hps, hnav, hpn, hx, statusOf]
  · intro env req o hm
    have hcu : ∀ res : Resources, Event.waitForSelector ∉ cleanupEvents o res := by
      intro res
      rcases res with ⟨dc, bc, pc⟩
      cases dc <;> cases bc <;> cases pc <;> simp [cleanupEvents]
    have htry : Event.waitForSelector ∉ (runTryPhase env req o).2.1 := by
      rcases o with ⟨mk, la, np, ps, nav, pn, xe, cp, cb, rd⟩
      cases mk <;> cases la <;> cases np <;> cases ps <;> cases nav <;> cases pn <;>
        cases xe <;>
        simp [runTryPhase, runExtract, hm]
    unfold runHandler
    cases hv : jsFalsy req.url || jsFalsy req.selector with
    | true => simp [hv]
    | false =>
      rcases hr : runTryPhase env req o with ⟨r, evs, res⟩
      rw [hr] at htry
      dsimp at htry
      simp only [hv, Bool.false_eq_true, if_false]
      intro hmem
      rcases List.mem_append.mp hmem with hmem | hmem
      · exact htry hmem
      · exact hcu res hmem

/-- Witness for C9: a concrete XPath request whose expression matches
zero nodes answers with the empty JSON array, status 200, and its trace
has no selector wait. -/
theorem xpathEmptyMatchSuccessWitness :
    (runHandler envPlain reqXp oracleAllOk).1 =
      Response.success (SuccessPayload.jsonPayload []) ∧
    statusOf (runHandler envPlain reqXp oracleAllOk).1 = 200 ∧
    Event.waitForSelector ∉ (runHandler envPlain reqXp oracleAllOk).2 := by
  have h := xpathEmptyMatchSuccess.1 envPlain reqXp oracleAllOk "/tmp/puppeteer-user-data-x"
    true (by decide) (by decide) rfl rfl rfl rfl rfl rfl (Or.inl rfl)
  exact ⟨h.1, h.2, xpathEmptyMatchSuccess.2 envPlain reqXp oracleAllOk (by decide)⟩

end Paywall
